import Mathlib

/-!
Verification of the `sortable` library (`src/sortable/core.py`), a derivable
ordering facility.  A subclass of `Sortable` supplies some of the six rich
comparison methods `__eq__, __ne__, __lt__, __le__, __gt__, __ge__`; at class
creation `Sortable.__init_subclass__` validates the equality group, fills the
missing one of `__eq__`/`__ne__`, picks a root among the supplied ordering
methods with `max(concrete)` (Python string `max`) and installs the other
three ordering methods from the conversion table `_compare_conversions`.
Finally it calls `update_abstractmethods`, re-running the abstractness
bookkeeping of `abc`.

Python rich-comparison results are modelled by the tri-state `PyCmp`:
`T`/`F` for `True`/`False` and `NI` for the `NotImplemented` sentinel (the
spec's NOT-APPLICABLE).  In the derived-method bodies, `self == other` and
`self != other` dispatch (for same-class operands) to the class's `__eq__`
resp. `__ne__` method, which we pass in as an explicit function argument;
`type(self).__lt__(self, other)` and friends are likewise passed in as the
function the attribute lookup resolves to.
-/

namespace SortableSpec

/-- Result of a Python rich-comparison method: `True`, `False`, or the
`NotImplemented` sentinel (NOT-APPLICABLE). -/
inductive PyCmp where
  | T
  | F
  | NI
deriving DecidableEq

/-- Python truthiness of a `PyCmp` value (`NotImplemented` is truthy). -/
def truthy : PyCmp → Bool
  | .T => true
  | .F => false
  | .NI => true

/-- Python `not x` on a `PyCmp` value. -/
def pyNot (x : PyCmp) : PyCmp := if truthy x then .F else .T

/-- Python `x and y` on `PyCmp` values (returns `x` when falsy, else `y`). -/
def pyAnd (x y : PyCmp) : PyCmp := if truthy x then y else x

/-- Python `x or y` on `PyCmp` values (returns `x` when truthy, else `y`). -/
def pyOr (x y : PyCmp) : PyCmp := if truthy x then x else y

/-! ### Python string comparison and `max`

`Sortable.__init_subclass__` computes `root = max(concrete)` where
`concrete` is a set of dunder-name strings, so the tie-break among ordering
methods is Python's lexicographic-by-code-point string order. -/

/-- Python `a < b` on single characters, by code point. -/
def pyCharLt (a b : Char) : Bool := a.toNat < b.toNat

/-- Python string `<` on the underlying character lists: lexicographic by
code point. -/
def pyStrLtAux : List Char → List Char → Bool
  | _, [] => false
  | [], _ :: _ => true
  | a :: as, b :: bs => if a.toNat = b.toNat then pyStrLtAux as bs else pyCharLt a b

/-- Python string comparison `a < b` (lexicographic by code point). -/
def pyStrLt (a b : String) : Bool := pyStrLtAux a.data b.data

/-- Python `max` over a collection of strings: fold keeping the larger
element (`none` on the empty collection, where Python would raise; the
source only calls it on a non-empty set). -/
def pymax (l : List String) : Option String :=
  l.foldl
    (fun acc x =>
      match acc with
      | none => some x
      | some a => if pyStrLt a x then some x else some a)
    none

/-! ### The derived ordering methods (core.py lines 96-178)

Each function models one module-level conversion function.  The first
argument(s) stand for the methods the body's attribute lookups resolve to:
`type(self).__xx__` for the root call, and the class's `__eq__`/`__ne__`
for the`self == other` / `self != other` operator applications. -/

/-- Source `__gt__from_lt`: computed from `(not a < b) and (a != b)`,
with `NotImplemented` from the root call returned as is. -/
def __gt__from_lt (lt ne : α → α → PyCmp) (self other : α) : PyCmp :=
  let op_result := lt self other
  if op_result = .NI then op_result
  else pyAnd (pyNot op_result) (ne self other)

/-- Source `__le__from_lt`: computed from `(a < b) or (a == b)`. -/
def __le__from_lt (lt eq : α → α → PyCmp) (self other : α) : PyCmp :=
  let op_result := lt self other
  if op_result = .NI then op_result
  else pyOr op_result (eq self other)

/-- Source `__ge__from_lt`: computed from `not (a < b)`. -/
def __ge__from_lt (lt : α → α → PyCmp) (self other : α) : PyCmp :=
  let op_result := lt self other
  if op_result = .NI then op_result
  else pyNot op_result

/-- Source `__ge__from_le`: computed from `(not a <= b) or (a == b)`. -/
def __ge__from_le (le eq : α → α → PyCmp) (self other : α) : PyCmp :=
  let op_result := le self other
  if op_result = .NI then op_result
  else pyOr (pyNot op_result) (eq self other)

/-- Source `__lt__from_le`: computed from `(a <= b) and (a != b)`. -/
def __lt__from_le (le ne : α → α → PyCmp) (self other : α) : PyCmp :=
  let op_result := le self other
  if op_result = .NI then op_result
  else pyAnd op_result (ne self other)

/-- Source `__gt__from_le`: computed from `not (a <= b)`. -/
def __gt__from_le (le : α → α → PyCmp) (self other : α) : PyCmp :=
  let op_result := le self other
  if op_result = .NI then op_result
  else pyNot op_result

/-- Source `__lt__from_gt`: computed from `(not a > b) and (a != b)`. -/
def __lt__from_gt (gt ne : α → α → PyCmp) (self other : α) : PyCmp :=
  let op_result := gt self other
  if op_result = .NI then op_result
  else pyAnd (pyNot op_result) (ne self other)

/-- Source `__ge__from_gt`: computed from `(a > b) or (a == b)`. -/
def __ge__from_gt (gt eq : α → α → PyCmp) (self other : α) : PyCmp :=
  let op_result := gt self other
  if op_result = .NI then op_result
  else pyOr op_result (eq self other)

/-- Source `__le__from_gt`: computed from `not (a > b)`. -/
def __le__from_gt (gt : α → α → PyCmp) (self other : α) : PyCmp :=
  let op_result := gt self other
  if op_result = .NI then op_result
  else pyNot op_result

/-- Source `__le__from_ge`: computed from `(not a >= b) or (a == b)`. -/
def __le__from_ge (ge eq : α → α → PyCmp) (self other : α) : PyCmp :=
  let op_result := ge self other
  if op_result = .NI then op_result
  else pyOr (pyNot op_result) (eq self other)

/-- Source `__gt__from_ge`: computed from `(a >= b) and (a != b)`. -/
def __gt__from_ge (ge ne : α → α → PyCmp) (self other : α) : PyCmp :=
  let op_result := ge self other
  if op_result = .NI then op_result
  else pyAnd op_result (ne self other)

/-- Source `__lt__from_ge`: computed from `not (a >= b)`. -/
def __lt__from_ge (ge : α → α → PyCmp) (self other : α) : PyCmp :=
  let op_result := ge self other
  if op_result = .NI then op_result
  else pyNot op_result

/-! ### The spec's closed-form derivation identities (spec section 4.2)

These definitions follow the spec's wording of the derivation graph, one
per synthesized relation, to be compared with the source functions above:
e.g. for root `LT`, the spec states `LE(a,b) = LT(a,b) or EQ(a,b)`. -/

/-- Spec identity for root LT: `LE(a,b) = LT(a,b) or EQ(a,b)`. -/
def specLE_of_LT (lt eq : α → α → PyCmp) (a b : α) : PyCmp := pyOr (lt a b) (eq a b)

/-- Spec identity for root LT: `GT(a,b) = not LT(a,b) and NE(a,b)`. -/
def specGT_of_LT (lt ne : α → α → PyCmp) (a b : α) : PyCmp := pyAnd (pyNot (lt a b)) (ne a b)

/-- Spec identity for root LT: `GE(a,b) = not LT(a,b)`. -/
def specGE_of_LT (lt : α → α → PyCmp) (a b : α) : PyCmp := pyNot (lt a b)

/-- Spec identity for root LE: `LT(a,b) = LE(a,b) and NE(a,b)`. -/
def specLT_of_LE (le ne : α → α → PyCmp) (a b : α) : PyCmp := pyAnd (le a b) (ne a b)

/-- Spec identity for root LE: `GT(a,b) = not LE(a,b)`. -/
def specGT_of_LE (le : α → α → PyCmp) (a b : α) : PyCmp := pyNot (le a b)

/-- Spec identity for root LE: `GE(a,b) = not LE(a,b) or EQ(a,b)`. -/
def specGE_of_LE (le eq : α → α → PyCmp) (a b : α) : PyCmp := pyOr (pyNot (le a b)) (eq a b)

/-- Spec identity for root GT: `LT(a,b) = not GT(a,b) and NE(a,b)`. -/
def specLT_of_GT (gt ne : α → α → PyCmp) (a b : α) : PyCmp := pyAnd (pyNot (gt a b)) (ne a b)

/-- Spec identity for root GT: `LE(a,b) = not GT(a,b)`. -/
def specLE_of_GT (gt : α → α → PyCmp) (a b : α) : PyCmp := pyNot (gt a b)

/-- Spec identity for root GT: `GE(a,b) = GT(a,b) or EQ(a,b)`. -/
def specGE_of_GT (gt eq : α → α → PyCmp) (a b : α) : PyCmp := pyOr (gt a b) (eq a b)

/-- Spec identity for root GE: `LT(a,b) = not GE(a,b)`. -/
def specLT_of_GE (ge : α → α → PyCmp) (a b : α) : PyCmp := pyNot (ge a b)

/-- Spec identity for root GE: `LE(a,b) = not GE(a,b) or EQ(a,b)`. -/
def specLE_of_GE (ge eq : α → α → PyCmp) (a b : α) : PyCmp := pyOr (pyNot (ge a b)) (eq a b)

/-- Spec identity for root GE: `GT(a,b) = GE(a,b) and NE(a,b)`. -/
def specGT_of_GE (ge ne : α → α → PyCmp) (a b : α) : PyCmp := pyAnd (ge a b) (ne a b)

/-! ### The equality-group conversion functions (core.py lines 86-94)

Source `_ne__from_eq` (installed as `cls.__ne__` when only `__eq__` is
concrete) evaluates `result = self.__ne__(other)` — a call that resolves to
the installed `_ne__from_eq` itself — and then negates.  Symmetrically
`_eq__from_ne` (installed as `cls.__eq__`) evaluates `self.__eq__(other)`.
We model one call of the installed method with an explicit recursion-depth
budget (Python's recursion limit); `none` models the `RecursionError` raised
when the budget is exhausted.  The class's other equality method (`eq`
resp. `ne`) is passed in to record what was available to the body; the body
never consults it. -/

/-- Evaluation of the installed `__ne__ = _ne__from_eq` on a class whose
concrete `__eq__` is `eq`, with recursion budget `fuel`.  The body calls
`self.__ne__(other)` — itself — then maps `not result` over a
non-`NotImplemented` result. -/
def installed_ne_from_eq (eq : α → α → PyCmp) (self other : α) : Nat → Option PyCmp
  | 0 => none
  | fuel + 1 =>
    match installed_ne_from_eq eq self other fuel with
    | none => none
    | some result => some (if result = .NI then .NI else pyNot result)

/-- Evaluation of the installed `__eq__ = _eq__from_ne` on a class whose
concrete `__ne__` is `ne`, with recursion budget `fuel`.  The body calls
`self.__eq__(other)` — itself. -/
def installed_eq_from_ne (ne : α → α → PyCmp) (self other : α) : Nat → Option PyCmp
  | 0 => none
  | fuel + 1 =>
    match installed_eq_from_ne ne self other fuel with
    | none => none
    | some result => some (if result = .NI then .NI else pyNot result)

/-- The behavior the docstring of `_ne__from_eq` states (and the claim
expects): `a != b` computed as `not (a == b)`, `NotImplemented` propagated
rather than negated. -/
def intended_ne_from_eq (eq : α → α → PyCmp) (self other : α) : PyCmp :=
  if eq self other = .NI then .NI else pyNot (eq self other)

/-- The behavior the docstring of `_eq__from_ne` states (and the claim
expects): `a == b` computed as `not (a != b)`, `NotImplemented` propagated
rather than negated. -/
def intended_eq_from_ne (ne : α → α → PyCmp) (self other : α) : PyCmp :=
  if ne self other = .NI then .NI else pyNot (ne self other)

/-! ### The registration engine `Sortable.__init_subclass__` (core.py 44-83)

A candidate class is modelled by its six comparison-method slots as
attribute lookup sees them: `none` means the lookup reaches only
`Sortable`'s abstract declaration (`__isabstractmethod__` set), `some m`
means a concrete implementation `m` is reachable (author-supplied on this
class or a base, or previously installed by the engine on a base).
`Method` values identify which function object occupies a slot. -/

/-- A concrete function object occupying a comparison slot: an
author-supplied function (tagged by a label), or one of the module-level
conversion functions of core.py. -/
inductive Method where
  | userFn : Nat → Method
  | neFromEq
  | eqFromNe
  | leFromLt
  | gtFromLt
  | geFromLt
  | ltFromGe
  | leFromGe
  | gtFromGe
  | ltFromLe
  | gtFromLe
  | geFromLe
  | ltFromGt
  | leFromGt
  | geFromGt
deriving DecidableEq

/-- The comparison surface of a candidate class: the function object (if
any concrete one is reachable) in each of the six rich-comparison slots. -/
structure Cls where
  eq : Option Method
  ne : Option Method
  lt : Option Method
  le : Option Method
  gt : Option Method
  ge : Option Method
deriving DecidableEq

/-- Attribute lookup `getattr(cls, name, None)` restricted to concrete
implementations: the slot a dunder name denotes. -/
def getattr (cls : Cls) (name : String) : Option Method :=
  if name = "__eq__" then cls.eq
  else if name = "__ne__" then cls.ne
  else if name = "__lt__" then cls.lt
  else if name = "__le__" then cls.le
  else if name = "__gt__" then cls.gt
  else if name = "__ge__" then cls.ge
  else none

/-- Source helper `is_concrete(name)`: the attribute is found and is not
marked `__isabstractmethod__`. -/
def is_concrete (cls : Cls) (name : String) : Bool := (getattr cls name).isSome

/-- Python `setattr(cls, name, m)` on the six comparison slots. -/
def setattr (cls : Cls) (name : String) (m : Method) : Cls :=
  if name = "__eq__" then { cls with eq := some m }
  else if name = "__ne__" then { cls with ne := some m }
  else if name = "__lt__" then { cls with lt := some m }
  else if name = "__le__" then { cls with le := some m }
  else if name = "__gt__" then { cls with gt := some m }
  else if name = "__ge__" then { cls with ge := some m }
  else cls

/-- Source `_compare_ops = ['__lt__', '__le__', '__gt__', '__ge__']`. -/
def _compare_ops : List String := ["__lt__", "__le__", "__gt__", "__ge__"]

/-- The keys of the source dict `_compare_conversions`, in its insertion
order. -/
def _compare_conversions_keys : List String := ["__lt__", "__ge__", "__le__", "__gt__"]

/-- Source `_compare_conversions`: for each root, the functions installed
for the other three ordering slots. -/
def _compare_conversions (root : String) : List (String × Method) :=
  if root = "__lt__" then
    [("__le__", .leFromLt), ("__gt__", .gtFromLt), ("__ge__", .geFromLt)]
  else if root = "__ge__" then
    [("__lt__", .ltFromGe), ("__le__", .leFromGe), ("__gt__", .gtFromGe)]
  else if root = "__le__" then
    [("__lt__", .ltFromLe), ("__gt__", .gtFromLe), ("__ge__", .geFromLe)]
  else if root = "__gt__" then
    [("__lt__", .ltFromGt), ("__le__", .leFromGt), ("__ge__", .geFromGt)]
  else []

/-- The set comprehension of core.py line 72: the ordering dunder names
with a concrete implementation (as a list in the dict's key order; the
`max` taken of it does not depend on the order). -/
def concreteOrderingOps (cls : Cls) : List String :=
  _compare_conversions_keys.filter
    (fun op => (getattr cls op).isSome && is_concrete cls op)

/-- Source line 73, `root = max(concrete)`: the root the engine derives
from, by Python string `max`. -/
def rootOf (cls : Cls) : Option String := pymax (concreteOrderingOps cls)

/-- Source `Sortable.__init_subclass__` (core.py 44-83): validate the
equality group, fill its missing member, then — when at least one ordering
method is concrete — install the missing ordering methods from the root's
conversion table.  `Except.error` models the raised `TypeError`. -/
def __init_subclass__ (cls : Cls) : Except String Cls :=
  let has_eq := is_concrete cls "__eq__"
  let has_ne := is_concrete cls "__ne__"
  if ¬ (has_eq || has_ne) then
    Except.error "must define __eq__ or __ne__."
  else
    let cls1 := if ¬ has_ne then setattr cls "__ne__" .neFromEq else cls
    let cls2 := if ¬ has_eq then setattr cls1 "__eq__" .eqFromNe else cls1
    let cls3 :=
      if _compare_ops.any (fun op => is_concrete cls2 op) then
        let concrete := concreteOrderingOps cls2
        match pymax concrete with
        | some root =>
          (_compare_conversions root).foldl
            (fun c p => if concrete.contains p.1 then c else setattr c p.1 p.2)
            cls2
        | none => cls2
      else cls2
    Except.ok cls3

/-- `update_abstractmethods(cls)` outcome: the names still abstract after
registration — exactly the slots with no concrete implementation (all six
are declared abstract on `Sortable`). -/
def __abstractmethods__ (cls : Cls) : List String :=
  ["__eq__", "__ne__", "__lt__", "__le__", "__gt__", "__ge__"].filter
    (fun op => ¬ is_concrete cls op)

/-- ABCMeta's instantiation check: a class can be instantiated iff its
`__abstractmethods__` is empty; otherwise `cls(...)` raises `TypeError`
("Can't instantiate abstract class ... with abstract methods ..."). -/
def instantiable (cls : Cls) : Bool := (__abstractmethods__ cls).isEmpty

/-- Root selection as the spec words it: "if `LT` is present use it as
root regardless of what else is present; else prefer `LE`; else `GT`;
else `GE`" (spec section 4.2). -/
def precedenceRoot (cls : Cls) : Option String :=
  if is_concrete cls "__lt__" then some "__lt__"
  else if is_concrete cls "__le__" then some "__le__"
  else if is_concrete cls "__gt__" then some "__gt__"
  else if is_concrete cls "__ge__" then some "__ge__"
  else none

/-! ### The example classes (src/examples/example.py)

`Person` subclasses `Sortable` and defines only `__eq__` (by `name`);
registration of `Person` installs `__ne__ = _ne__from_eq` and leaves the
four ordering slots abstract.  `Student` subclasses `Person`, inherits that
surface, and adds `__le__` (by `average`); registration of `Student`
installs the three remaining ordering methods from root `__le__`.
`average` is a Python float that only ever holds small integers in the
scenario, so it is modelled by `Int` (all comparisons involved are exact
in both representations). -/

/-- A `Student` value: a `name` and an `average`. -/
structure Student where
  name : String
  average : Int

/-- Source `Person.__eq__`: `self.name == other.name`. -/
def Person_eq (self other : Student) : PyCmp :=
  if self.name = other.name then .T else .F

/-- Source `Student.__le__`: `self.average <= other.average`. -/
def Student_le (self other : Student) : PyCmp :=
  if self.average ≤ other.average then .T else .F

/-- The comparison surface `Sortable.__init_subclass__` sees when `Person`
is defined: only `__eq__` is concrete (`userFn 0` stands for
`Person.__eq__`). -/
def PersonCls : Cls := ⟨some (.userFn 0), none, none, none, none, none⟩

/-- `Person` after registration: `__ne__` filled with `_ne__from_eq`, the
ordering slots still abstract. -/
def PersonRegistered : Cls := ⟨some (.userFn 0), some .neFromEq, none, none, none, none⟩

/-- The comparison surface seen when `Student` is defined: `__eq__` and
`__ne__` inherited from registered `Person`, plus its own `__le__`
(`userFn 1` stands for `Student.__le__`). -/
def StudentCls : Cls :=
  ⟨some (.userFn 0), some .neFromEq, none, some (.userFn 1), none, none⟩

/-- `Student` after registration: `__lt__`, `__gt__`, `__ge__` installed
from root `__le__`. -/
def StudentRegistered : Cls :=
  ⟨some (.userFn 0), some .neFromEq, some .ltFromLe, some (.userFn 1),
   some .gtFromLe, some .geFromLe⟩

/-! ### Dynamic dispatch of the derived methods (for C10)

The derived-method bodies call `type(self).__lt__(self, other)` (and the
analogous root for the other conversions): the root implementation is
looked up on the runtime class of the left operand at call time.  To state
this, objects carry their runtime class, and the method a slot name
resolves to is a function of that class. -/

/-- A Python object: its runtime class (`type(self)`) and its payload. -/
structure PyObj (α : Type) where
  cls : Nat
  val : α

/-- Source `__gt__from_lt` with the attribute lookups explicit: `ltSlot c`
is the `__lt__` implementation found on class `c` (through the MRO), and
`neSlot c` the `__ne__` implementation the `!=` dispatch uses. -/
def dyn__gt__from_lt (ltSlot neSlot : Nat → PyObj α → PyObj α → PyCmp)
    (self other : PyObj α) : PyCmp :=
  let op_result := ltSlot self.cls self other
  if op_result = .NI then op_result
  else pyAnd (pyNot op_result) (neSlot self.cls self other)

/-- Source `__le__from_lt` with the attribute lookups explicit. -/
def dyn__le__from_lt (ltSlot eqSlot : Nat → PyObj α → PyObj α → PyCmp)
    (self other : PyObj α) : PyCmp :=
  let op_result := ltSlot self.cls self other
  if op_result = .NI then op_result
  else pyOr op_result (eqSlot self.cls self other)

/-- Source `__ge__from_lt` with the attribute lookup explicit. -/
def dyn__ge__from_lt (ltSlot : Nat → PyObj α → PyObj α → PyCmp)
    (self other : PyObj α) : PyCmp :=
  let op_result := ltSlot self.cls self other
  if op_result = .NI then op_result
  else pyNot op_result

/-- Source `__ge__from_le` with the attribute lookups explicit. -/
def dyn__ge__from_le (leSlot eqSlot : Nat → PyObj α → PyObj α → PyCmp)
    (self other : PyObj α) : PyCmp :=
  let op_result := leSlot self.cls self other
  if op_result = .NI then op_result
  else pyOr (pyNot op_result) (eqSlot self.cls self other)

/-- Source `__lt__from_le` with the attribute lookups explicit. -/
def dyn__lt__from_le (leSlot neSlot : Nat → PyObj α → PyObj α → PyCmp)
    (self other : PyObj α) : PyCmp :=
  let op_result := leSlot self.cls self other
  if op_result = .NI then op_result
  else pyAnd op_result (neSlot self.cls self other)

/-- Source `__gt__from_le` with the attribute lookup explicit. -/
def dyn__gt__from_le (leSlot : Nat → PyObj α → PyObj α → PyCmp)
    (self other : PyObj α) : PyCmp :=
  let op_result := leSlot self.cls self other
  if op_result = .NI then op_result
  else pyNot op_result

/-- Source `__lt__from_gt` with the attribute lookups explicit. -/
def dyn__lt__from_gt (gtSlot neSlot : Nat → PyObj α → PyObj α → PyCmp)
    (self other : PyObj α) : PyCmp :=
  let op_result := gtSlot self.cls self other
  if op_result = .NI then op_result
  else pyAnd (pyNot op_result) (neSlot self.cls self other)

/-- Source `__ge__from_gt` with the attribute lookups explicit. -/
def dyn__ge__from_gt (gtSlot eqSlot : Nat → PyObj α → PyObj α → PyCmp)
    (self other : PyObj α) : PyCmp :=
  let op_result := gtSlot self.cls self other
  if op_result = .NI then op_result
  else pyOr op_result (eqSlot self.cls self other)

/-- Source `__le__from_gt` with the attribute lookup explicit. -/
def dyn__le__from_gt (gtSlot : Nat → PyObj α → PyObj α → PyCmp)
    (self other : PyObj α) : PyCmp :=
  let op_result := gtSlot self.cls self other
  if op_result = .NI then op_result
  else pyNot op_result

/-- Source `__le__from_ge` with the attribute lookups explicit. -/
def dyn__le__from_ge (geSlot eqSlot : Nat → PyObj α → PyObj α → PyCmp)
    (self other : PyObj α) : PyCmp :=
  let op_result := geSlot self.cls self other
  if op_result = .NI then op_result
  else pyOr (pyNot op_result) (eqSlot self.cls self other)

/-- Source `__gt__from_ge` with the attribute lookups explicit. -/
def dyn__gt__from_ge (geSlot neSlot : Nat → PyObj α → PyObj α → PyCmp)
    (self other : PyObj α) : PyCmp :=
  let op_result := geSlot self.cls self other
  if op_result = .NI then op_result
  else pyAnd op_result (neSlot self.cls self other)

/-- Source `__lt__from_ge` with the attribute lookup explicit. -/
def dyn__lt__from_ge (geSlot : Nat → PyObj α → PyObj α → PyCmp)
    (self other : PyObj α) : PyCmp :=
  let op_result := geSlot self.cls self other
  if op_result = .NI then op_result
  else pyNot op_result

/-- A parent's `__lt__`: payload order. -/
def parent_lt (self other : PyObj Int) : PyCmp :=
  if self.val < other.val then .T else .F

/-- A subtype's overriding `__lt__`: the reversed payload order. -/
def child_lt (self other : PyObj Int) : PyCmp :=
  if other.val < self.val then .T else .F

/-- A `__ne__` implementation shared by the hierarchy: payload
disequality. -/
def obj_ne (self other : PyObj Int) : PyCmp :=
  if self.val = other.val then .F else .T

/-- The `__lt__` slot table of a two-class hierarchy: class `0` (parent)
supplies `parent_lt`; class `1` (subtype) overrides it with `child_lt`. -/
def hier_lt : Nat → PyObj Int → PyObj Int → PyCmp :=
  fun c => if c = 1 then child_lt else parent_lt

/-! ## Claim theorems -/

/-- C1: the claim states that when exactly one of `__eq__`/`__ne__` is
concrete, the synthesized other one returns its logical negation
(NOT-APPLICABLE propagated).  The code contradicts its own docstrings: the
installed `__ne__ = _ne__from_eq` evaluates `self.__ne__(other)` — itself —
and the installed `__eq__ = _eq__from_ne` evaluates `self.__eq__(other)` —
itself.  Hence every call recurses until the recursion limit, raising
`RecursionError` (modelled: `none` for every recursion budget), and in
particular never produces the claimed negation value. -/
theorem C1_synthesized_equality_diverges :
    ∀ (α : Type) (eqf nef : α → α → PyCmp) (self other : α) (fuel : Nat),
      installed_ne_from_eq eqf self other fuel = none ∧
      installed_eq_from_ne nef self other fuel = none ∧
      installed_ne_from_eq eqf self other fuel ≠
        some (intended_ne_from_eq eqf self other) ∧
      installed_eq_from_ne nef self other fuel ≠
        some (intended_eq_from_ne nef self other) := by
  intro α eqf nef self other fuel
  have hne : ∀ n : Nat, installed_ne_from_eq eqf self other n = none := by
    intro n
    induction n with
    | zero => rfl
    | succ n ih => simp [installed_ne_from_eq, ih]
  have heq : ∀ n : Nat, installed_eq_from_ne nef self other n = none := by
    intro n
    induction n with
    | zero => rfl
    | succ n ih => simp [installed_eq_from_ne, ih]
  refine ⟨hne fuel, heq fuel, ?_, ?_⟩ <;> simp [hne fuel, heq fuel]

/-- C2: for every candidate class the root chosen by
`root = max(concrete)` (Python string `max`) coincides with the
spec's fixed precedence order `LT > LE > GT > GE`; in particular a class
supplying exactly `__lt__` and `__ge__` (plus `__eq__`) derives `__le__`
and `__gt__` from `__lt__` and leaves the author's `__ge__` untouched. -/
theorem C2_root_precedence :
    (∀ cls : Cls, rootOf cls = precedenceRoot cls) ∧
    (∀ meq mlt mge : Method,
      __init_subclass__ ⟨some meq, none, some mlt, none, none, some mge⟩ =
        .ok ⟨some meq, some .neFromEq, some mlt, some .leFromLt,
             some .gtFromLt, some mge⟩) := by
  constructor
  · intro cls
    obtain ⟨eqs, nes, lts, les, gts, ges⟩ := cls
    cases lts <;> cases les <;> cases gts <;> cases ges <;> rfl
  · intro meq mlt mge
    rfl

/-- C5: registration raises the `TypeError` exactly when neither `__eq__`
nor `__ne__` is concrete; any class with a concrete equality method —
in particular one with no concrete ordering method at all — registers
without error. -/
theorem C5_definition_error_iff_no_equality :
    ∀ cls : Cls,
      (∃ e, __init_subclass__ cls = .error e) ↔ (cls.eq = none ∧ cls.ne = none) := by
  intro cls
  obtain ⟨eqs, nes, lts, les, gts, ges⟩ := cls
  cases eqs <;> cases nes <;>
    simp [__init_subclass__, is_concrete, getattr]

/-- Witness for C5 at a concrete class: a class defining neither `__eq__`
nor `__ne__` (but a concrete `__lt__`) is rejected at definition time. -/
theorem C5_witness :
    ∃ e, __init_subclass__ ⟨none, none, some (.userFn 0), none, none, none⟩ =
      .error e :=
  (C5_definition_error_iff_no_equality
    ⟨none, none, some (.userFn 0), none, none, none⟩).mpr ⟨rfl, rfl⟩

/-- C3: for each root, every synthesized ordering method agrees with the
spec's closed-form identity of that root on every pair where the root
returns `True` or `False` (identities read over the class's equality
methods; root=LT: `LE = LT or EQ`, `GT = not LT and NE`, `GE = not LT`;
root=LE: `LT = LE and NE`, `GT = not LE`, `GE = not LE or EQ`; root=GT:
`LT = not GT and NE`, `LE = not GT`, `GE = GT or EQ`; root=GE:
`LT = not GE`, `LE = not GE or EQ`, `GT = GE and NE`). -/
theorem C3_closed_form_identities :
    ∀ (α : Type) (lt le gt ge eqf nef : α → α → PyCmp) (a b : α),
      (lt a b ≠ .NI →
        __le__from_lt lt eqf a b = specLE_of_LT lt eqf a b ∧
        __gt__from_lt lt nef a b = specGT_of_LT lt nef a b ∧
        __ge__from_lt lt a b = specGE_of_LT lt a b) ∧
      (le a b ≠ .NI →
        __lt__from_le le nef a b = specLT_of_LE le nef a b ∧
        __gt__from_le le a b = specGT_of_LE le a b ∧
        __ge__from_le le eqf a b = specGE_of_LE le eqf a b) ∧
      (gt a b ≠ .NI →
        __lt__from_gt gt nef a b = specLT_of_GT gt nef a b ∧
        __le__from_gt gt a b = specLE_of_GT gt a b ∧
        __ge__from_gt gt eqf a b = specGE_of_GT gt eqf a b) ∧
      (ge a b ≠ .NI →
        __lt__from_ge ge a b = specLT_of_GE ge a b ∧
        __le__from_ge ge eqf a b = specLE_of_GE ge eqf a b ∧
        __gt__from_ge ge nef a b = specGT_of_GE ge nef a b) := by
  intro α lt le gt ge eqf nef a b
  refine ⟨fun h => ?_, fun h => ?_, fun h => ?_, fun h => ?_⟩
  · cases hx : lt a b with
    | NI => exact absurd hx h
    | T =>
      refine ⟨?_, ?_, ?_⟩ <;>
        simp [__le__from_lt, __gt__from_lt, __ge__from_lt,
          specLE_of_LT, specGT_of_LT, specGE_of_LT, hx]
    | F =>
      refine ⟨?_, ?_, ?_⟩ <;>
        simp [__le__from_lt, __gt__from_lt, __ge__from_lt,
          specLE_of_LT, specGT_of_LT, specGE_of_LT, hx]
  · cases hx : le a b with
    | NI => exact absurd hx h
    | T =>
      refine ⟨?_, ?_, ?_⟩ <;>
        simp [__lt__from_le, __gt__from_le, __ge__from_le,
          specLT_of_LE, specGT_of_LE, specGE_of_LE, hx]
    | F =>
      refine ⟨?_, ?_, ?_⟩ <;>
        simp [__lt__from_le, __gt__from_le, __ge__from_le,
          specLT_of_LE, specGT_of_LE, specGE_of_LE, hx]
  · cases hx : gt a b with
    | NI => exact absurd hx h
    | T =>
      refine ⟨?_, ?_, ?_⟩ <;>
        simp [__lt__from_gt, __le__from_gt, __ge__from_gt,
          specLT_of_GT, specLE_of_GT, specGE_of_GT, hx]
    | F =>
      refine ⟨?_, ?_, ?_⟩ <;>
        simp [__lt__from_gt, __le__from_gt, __ge__from_gt,
          specLT_of_GT, specLE_of_GT, specGE_of_GT, hx]
  · cases hx : ge a b with
    | NI => exact absurd hx h
    | T =>
      refine ⟨?_, ?_, ?_⟩ <;>
        simp [__lt__from_ge, __le__from_ge, __gt__from_ge,
          specLT_of_GE, specLE_of_GE, specGT_of_GE, hx]
    | F =>
      refine ⟨?_, ?_, ?_⟩ <;>
        simp [__lt__from_ge, __le__from_ge, __gt__from_ge,
          specLT_of_GE, specLE_of_GE, specGT_of_GE, hx]

/-- Witness for C3 at concrete relations on `Unit` (all roots constantly
`False`, equality methods constantly `True`), discharging the four
non-NOT-APPLICABLE hypotheses. -/
theorem C3_witness :
    (__le__from_lt (fun _ _ => PyCmp.F) (fun _ _ => PyCmp.T) () () =
        specLE_of_LT (fun _ _ => PyCmp.F) (fun _ _ => PyCmp.T) () () ∧
      __gt__from_lt (fun _ _ => PyCmp.F) (fun _ _ => PyCmp.T) () () =
        specGT_of_LT (fun _ _ => PyCmp.F) (fun _ _ => PyCmp.T) () () ∧
      __ge__from_lt (fun _ _ => PyCmp.F) () () =
        specGE_of_LT (fun _ _ => PyCmp.F) () ()) ∧
    (__lt__from_le (fun _ _ => PyCmp.F) (fun _ _ => PyCmp.T) () () =
        specLT_of_LE (fun _ _ => PyCmp.F) (fun _ _ => PyCmp.T) () () ∧
      __gt__from_le (fun _ _ => PyCmp.F) () () =
        specGT_of_LE (fun _ _ => PyCmp.F) () () ∧
      __ge__from_le (fun _ _ => PyCmp.F) (fun _ _ => PyCmp.T) () () =
        specGE_of_LE (fun _ _ => PyCmp.F) (fun _ _ => PyCmp.T) () ()) ∧
    (__lt__from_gt (fun _ _ => PyCmp.F) (fun _ _ => PyCmp.T) () () =
        specLT_of_GT (fun _ _ => PyCmp.F) (fun _ _ => PyCmp.T) () () ∧
      __le__from_gt (fun _ _ => PyCmp.F) () () =
        specLE_of_GT (fun _ _ => PyCmp.F) () () ∧
      __ge__from_gt (fun _ _ => PyCmp.F) (fun _ _ => PyCmp.T) () () =
        specGE_of_GT (fun _ _ => PyCmp.F) (fun _ _ => PyCmp.T) () ()) ∧
    (__lt__from_ge (fun _ _ => PyCmp.F) () () =
        specLT_of_GE (fun _ _ => PyCmp.F) () () ∧
      __le__from_ge (fun _ _ => PyCmp.F) (fun _ _ => PyCmp.T) () () =
        specLE_of_GE (fun _ _ => PyCmp.F) (fun _ _ => PyCmp.T) () () ∧
      __gt__from_ge (fun _ _ => PyCmp.F) (fun _ _ => PyCmp.T) () () =
        specGT_of_GE (fun _ _ => PyCmp.F) (fun _ _ => PyCmp.T) () ()) := by
  have h := C3_closed_form_identities Unit (fun _ _ => PyCmp.F)
    (fun _ _ => PyCmp.F) (fun _ _ => PyCmp.F) (fun _ _ => PyCmp.F)
    (fun _ _ => PyCmp.T) (fun _ _ => PyCmp.T) () ()
  obtain ⟨h1, h2, h3, h4⟩ := h
  exact ⟨h1 (by decide), h2 (by decide), h3 (by decide), h4 (by decide)⟩

/-- C4: whenever the underlying root-method call returns NOT-APPLICABLE on
a pair, each synthesized relation returns NOT-APPLICABLE, for every choice
of equality methods — in particular without any dependence on (hence
without evaluating) `__eq__`/`__ne__`. -/
theorem C4_root_na_short_circuits :
    ∀ (α : Type) (lt le gt ge eqf nef : α → α → PyCmp) (a b : α),
      (lt a b = .NI →
        __le__from_lt lt eqf a b = .NI ∧
        __gt__from_lt lt nef a b = .NI ∧
        __ge__from_lt lt a b = .NI) ∧
      (le a b = .NI →
        __lt__from_le le nef a b = .NI ∧
        __gt__from_le le a b = .NI ∧
        __ge__from_le le eqf a b = .NI) ∧
      (gt a b = .NI →
        __lt__from_gt gt nef a b = .NI ∧
        __le__from_gt gt a b = .NI ∧
        __ge__from_gt gt eqf a b = .NI) ∧
      (ge a b = .NI →
        __lt__from_ge ge a b = .NI ∧
        __le__from_ge ge eqf a b = .NI ∧
        __gt__from_ge ge nef a b = .NI) := by
  intro α lt le gt ge eqf nef a b
  refine ⟨fun h => ?_, fun h => ?_, fun h => ?_, fun h => ?_⟩
  · exact ⟨by simp [__le__from_lt, h], by simp [__gt__from_lt, h],
      by simp [__ge__from_lt, h]⟩
  · exact ⟨by simp [__lt__from_le, h], by simp [__gt__from_le, h],
      by simp [__ge__from_le, h]⟩
  · exact ⟨by simp [__lt__from_gt, h], by simp [__le__from_gt, h],
      by simp [__ge__from_gt, h]⟩
  · exact ⟨by simp [__lt__from_ge, h], by simp [__le__from_ge, h],
      by simp [__gt__from_ge, h]⟩

/-- Witness for C4 at concrete relations on `Unit`: all roots constantly
NOT-APPLICABLE, equality methods constantly `True`; every synthesized
relation returns NOT-APPLICABLE. -/
theorem C4_witness :
    (__le__from_lt (fun _ _ => PyCmp.NI) (fun _ _ => PyCmp.T) () () = .NI ∧
      __gt__from_lt (fun _ _ => PyCmp.NI) (fun _ _ => PyCmp.T) () () = .NI ∧
      __ge__from_lt (fun _ _ => PyCmp.NI) () () = .NI) ∧
    (__lt__from_le (fun _ _ => PyCmp.NI) (fun _ _ => PyCmp.T) () () = .NI ∧
      __gt__from_le (fun _ _ => PyCmp.NI) () () = .NI ∧
      __ge__from_le (fun _ _ => PyCmp.NI) (fun _ _ => PyCmp.T) () () = .NI) ∧
    (__lt__from_gt (fun _ _ => PyCmp.NI) (fun _ _ => PyCmp.T) () () = .NI ∧
      __le__from_gt (fun _ _ => PyCmp.NI) () () = .NI ∧
      __ge__from_gt (fun _ _ => PyCmp.NI) (fun _ _ => PyCmp.T) () () = .NI) ∧
    (__lt__from_ge (fun _ _ => PyCmp.NI) () () = .NI ∧
      __le__from_ge (fun _ _ => PyCmp.NI) (fun _ _ => PyCmp.T) () () = .NI ∧
      __gt__from_ge (fun _ _ => PyCmp.NI) (fun _ _ => PyCmp.T) () () = .NI) := by
  have h := C4_root_na_short_circuits Unit (fun _ _ => PyCmp.NI)
    (fun _ _ => PyCmp.NI) (fun _ _ => PyCmp.NI) (fun _ _ => PyCmp.NI)
    (fun _ _ => PyCmp.T) (fun _ _ => PyCmp.T) () ()
  obtain ⟨h1, h2, h3, h4⟩ := h
  exact ⟨h1 rfl, h2 rfl, h3 rfl, h4 rfl⟩

/-- C9: the `Student` scenario.  Registering `Student` (surface: inherited
`__eq__`/`__ne__`, own `__le__`) installs `__lt__`, `__gt__`, `__ge__`
from root `__le__`; then `Student('A',90) > Student('B',70)` is `True`
(via `__gt__from_le` over `Student.__le__`), `Student('A',90) <=
Student('A',90)` is `True` (author-supplied `__le__`), and
`Student('A',90) == Student('B',90)` is `False` (inherited
`Person.__eq__` compares names, which differ, though averages tie). -/
theorem C9_student_scenario :
    __init_subclass__ StudentCls = .ok StudentRegistered ∧
    StudentRegistered.gt = some .gtFromLe ∧
    __gt__from_le Student_le ⟨"A", 90⟩ ⟨"B", 70⟩ = .T ∧
    Student_le ⟨"A", 90⟩ ⟨"A", 90⟩ = .T ∧
    Person_eq ⟨"A", 90⟩ ⟨"B", 90⟩ = .F := by
  refine ⟨rfl, rfl, ?_, ?_, ?_⟩ <;> decide

set_option maxHeartbeats 2000000 in
/-- C6: registration never replaces a concrete slot — every slot already
`some m` before `__init_subclass__` still holds the same `m` afterwards
(equality and ordering group alike, hence also for inherited or
previously derived methods of a subtype) — and re-running
`__init_subclass__` on the result changes nothing. -/
theorem C6_no_overwrite_idempotent :
    ∀ cls cls' : Cls, __init_subclass__ cls = .ok cls' →
      ((∀ m, cls.eq = some m → cls'.eq = some m) ∧
       (∀ m, cls.ne = some m → cls'.ne = some m) ∧
       (∀ m, cls.lt = some m → cls'.lt = some m) ∧
       (∀ m, cls.le = some m → cls'.le = some m) ∧
       (∀ m, cls.gt = some m → cls'.gt = some m) ∧
       (∀ m, cls.ge = some m → cls'.ge = some m)) ∧
      __init_subclass__ cls' = .ok cls' := by
  intro cls cls' h
  obtain ⟨eqs, nes, lts, les, gts, ges⟩ := cls
  cases eqs <;> cases nes <;> cases lts <;> cases les <;> cases gts <;> cases ges <;>
    simp [__init_subclass__, is_concrete, getattr, setattr, concreteOrderingOps,
      _compare_conversions_keys, _compare_ops, _compare_conversions, pymax, pyStrLt,
      pyStrLtAux, pyCharLt] at h <;>
    subst h <;>
    refine ⟨⟨?_, ?_, ?_, ?_, ?_, ?_⟩, ?_⟩ <;>
    first
    | (intro m hm; simp_all)
    | simp [__init_subclass__, is_concrete, getattr, setattr, concreteOrderingOps,
        _compare_conversions_keys, _compare_ops, _compare_conversions, pymax, pyStrLt,
        pyStrLtAux, pyCharLt]

/-- Witness for C6 at the registered `Student` surface: the
author-supplied `__le__` survives registration, and re-registering the
registered class is the identity. -/
theorem C6_witness :
    StudentRegistered.le = some (.userFn 1) ∧
    __init_subclass__ StudentRegistered = .ok StudentRegistered := by
  have h := C6_no_overwrite_idempotent StudentCls StudentRegistered rfl
  exact ⟨h.1.2.2.2.1 (.userFn 1) rfl, h.2⟩

/-- C7 counterexample: the claim asserts that a type with no concrete
ordering method still yields instances, on which `equals` succeeds and the
ordering calls raise a capability error.  On the code, registering such a
class (here `Person`, which supplies only `__eq__`) succeeds, but the four
ordering slots stay abstract, so ABCMeta refuses to instantiate the class:
no instance on which `equals` or `lessThan` could be called ever exists. -/
theorem C7_counterexample :
    __init_subclass__ PersonCls = .ok PersonRegistered ∧
    ¬ instantiable PersonRegistered = true := by
  exact ⟨rfl, by decide⟩

/-- C7 as amended: for every candidate class with a concrete equality
method and no concrete ordering method, registration succeeds without any
definition-time error, the four ordering slots remain abstract, and the
class is therefore left non-instantiable — the failure surfaces at the
first instantiation attempt, not at definition time. -/
theorem C7_ordering_free_class_registers_but_uninstantiable :
    ∀ eqs nes : Option Method, (eqs.isSome = true ∨ nes.isSome = true) →
      ∃ cls', __init_subclass__ ⟨eqs, nes, none, none, none, none⟩ = .ok cls' ∧
        cls'.lt = none ∧ cls'.le = none ∧ cls'.gt = none ∧ cls'.ge = none ∧
        instantiable cls' = false := by
  intro eqs nes h1
  cases eqs with
  | some a =>
    cases nes with
    | some b =>
      exact ⟨⟨some a, some b, none, none, none, none⟩, rfl, rfl, rfl, rfl, rfl, rfl⟩
    | none =>
      exact ⟨⟨some a, some .neFromEq, none, none, none, none⟩, rfl, rfl, rfl, rfl, rfl, rfl⟩
  | none =>
    cases nes with
    | some b =>
      exact ⟨⟨some .eqFromNe, some b, none, none, none, none⟩, rfl, rfl, rfl, rfl, rfl, rfl⟩
    | none =>
      simp at h1

/-- Witness for the amended C7 at `Person`'s surface (only `__eq__`
concrete). -/
theorem C7_witness :
    ∃ cls', __init_subclass__ ⟨some (.userFn 0), none, none, none, none, none⟩ =
        .ok cls' ∧
      cls'.lt = none ∧ cls'.le = none ∧ cls'.gt = none ∧ cls'.ge = none ∧
      instantiable cls' = false :=
  C7_ordering_free_class_registers_but_uninstantiable
    (some (.userFn 0)) none (Or.inl rfl)

set_option maxHeartbeats 2000000 in
/-- C8: whenever registration succeeds and at least one ordering method was
concrete, the resulting surface has all six slots concrete, the recomputed
`__abstractmethods__` is empty, and the class is instantiable. -/
theorem C8_full_surface_instantiable :
    ∀ cls cls' : Cls, __init_subclass__ cls = .ok cls' →
      (cls.lt.isSome = true ∨ cls.le.isSome = true ∨
       cls.gt.isSome = true ∨ cls.ge.isSome = true) →
      (cls'.eq.isSome = true ∧ cls'.ne.isSome = true ∧ cls'.lt.isSome = true ∧
       cls'.le.isSome = true ∧ cls'.gt.isSome = true ∧ cls'.ge.isSome = true) ∧
      __abstractmethods__ cls' = [] ∧ instantiable cls' = true := by
  intro cls cls' h hord
  obtain ⟨eqs, nes, lts, les, gts, ges⟩ := cls
  cases eqs <;> cases nes <;> cases lts <;> cases les <;> cases gts <;> cases ges <;>
    simp [__init_subclass__, is_concrete, getattr, setattr, concreteOrderingOps,
      _compare_conversions_keys, _compare_ops, _compare_conversions, pymax, pyStrLt,
      pyStrLtAux, pyCharLt] at h <;>
    subst h <;>
    simp_all [__abstractmethods__, instantiable, is_concrete, getattr]

/-- Witness for C8 at the `Student` surface (one concrete ordering
method, `__le__`). -/
theorem C8_witness :
    (StudentRegistered.eq.isSome = true ∧ StudentRegistered.ne.isSome = true ∧
     StudentRegistered.lt.isSome = true ∧ StudentRegistered.le.isSome = true ∧
     StudentRegistered.gt.isSome = true ∧ StudentRegistered.ge.isSome = true) ∧
    __abstractmethods__ StudentRegistered = [] ∧
    instantiable StudentRegistered = true :=
  C8_full_surface_instantiable StudentCls StudentRegistered rfl
    (Or.inr (Or.inl rfl))

/-- C10: each synthesized relation reads its root (and equality) method off
the runtime class of its left operand at call time: its result is the same
under any two slot tables that agree on `self`'s class, regardless of what
other classes (e.g. the class the method was installed on) map to.
Consequently, in a hierarchy where the subtype (class 1) overrides the
parent's `__lt__` with the reversed comparison, the inherited derived
`__gt__` on a subtype instance computes from the subtype's `__lt__`
(giving `True` on `3 > 5`-reversed), not from the parent's (which would
give `False`) — with no re-synthesis. -/
theorem C10_dynamic_root_dispatch :
    (∀ (α : Type) (t t' e e' n n' : Nat → PyObj α → PyObj α → PyCmp)
        (self other : PyObj α),
      t self.cls = t' self.cls → e self.cls = e' self.cls →
      n self.cls = n' self.cls →
      dyn__gt__from_lt t n self other = dyn__gt__from_lt t' n' self other ∧
      dyn__le__from_lt t e self other = dyn__le__from_lt t' e' self other ∧
      dyn__ge__from_lt t self other = dyn__ge__from_lt t' self other ∧
      dyn__ge__from_le t e self other = dyn__ge__from_le t' e' self other ∧
      dyn__lt__from_le t n self other = dyn__lt__from_le t' n' self other ∧
      dyn__gt__from_le t self other = dyn__gt__from_le t' self other ∧
      dyn__lt__from_gt t n self other = dyn__lt__from_gt t' n' self other ∧
      dyn__ge__from_gt t e self other = dyn__ge__from_gt t' e' self other ∧
      dyn__le__from_gt t self other = dyn__le__from_gt t' self other ∧
      dyn__le__from_ge t e self other = dyn__le__from_ge t' e' self other ∧
      dyn__gt__from_ge t n self other = dyn__gt__from_ge t' n' self other ∧
      dyn__lt__from_ge t self other = dyn__lt__from_ge t' self other) ∧
    dyn__gt__from_lt hier_lt (fun _ => obj_ne) ⟨1, 3⟩ ⟨1, 5⟩ = .T ∧
    dyn__gt__from_lt (fun _ => parent_lt) (fun _ => obj_ne) ⟨1, 3⟩ ⟨1, 5⟩ = .F := by
  refine ⟨?_, by decide, by decide⟩
  intro α t t' e e' n n' self other h1 h2 h3
  refine ⟨?_, ?_, ?_, ?_, ?_, ?_, ?_, ?_, ?_, ?_, ?_, ?_⟩ <;>
    simp [dyn__gt__from_lt, dyn__le__from_lt, dyn__ge__from_lt, dyn__ge__from_le,
      dyn__lt__from_le, dyn__gt__from_le, dyn__lt__from_gt, dyn__ge__from_gt,
      dyn__le__from_gt, dyn__le__from_ge, dyn__gt__from_ge, dyn__lt__from_ge,
      h1, h2, h3]

/-- Witness for C10: the subtype slot table `hier_lt` and the constant
table returning the subtype's own `__lt__` agree on class 1, so every
derived relation gives identical results on subtype instances. -/
theorem C10_witness :
    dyn__gt__from_lt hier_lt (fun _ => obj_ne) ⟨1, 3⟩ ⟨1, 5⟩ =
      dyn__gt__from_lt (fun _ => child_lt) (fun _ => obj_ne) ⟨1, 3⟩ ⟨1, 5⟩ ∧
    dyn__lt__from_le hier_lt (fun _ => obj_ne) ⟨1, 3⟩ ⟨1, 5⟩ =
      dyn__lt__from_le (fun _ => child_lt) (fun _ => obj_ne) ⟨1, 3⟩ ⟨1, 5⟩ ∧
    dyn__ge__from_lt hier_lt ⟨1, 3⟩ ⟨1, 5⟩ =
      dyn__ge__from_lt (fun _ => child_lt) ⟨1, 3⟩ ⟨1, 5⟩ := by
  have h := C10_dynamic_root_dispatch.1 Int hier_lt (fun _ => child_lt)
    (fun _ => obj_ne) (fun _ => obj_ne) (fun _ => obj_ne) (fun _ => obj_ne)
    ⟨1, 3⟩ ⟨1, 5⟩ rfl rfl rfl
  exact ⟨h.1, h.2.2.2.2.1, h.2.2.1⟩

end SortableSpec
